import Mathlib

/-!
Shallow embedding of the invitation / check-in / message backend
(Express routes over a MySQL store).  The authoritative revision of the
invitation routes is the one mounted by `src/index.js`
(`invitation-and-message-routes.js`, the richer revision): slug utilities,
POST create, PATCH `/:slug/status`, PATCH `/:slug/kehadiran`,
PATCH `/checkin/:slug`, GET `/summary`, and the message router.

Modelling conventions:
* SQL rows are Lean structures; nullable columns are `Option` fields.
* The database is a `Store` of row lists plus auto-increment counters.
* `NOW()` is an explicit `now : Nat` argument to the handler.
* `UPDATE ... WHERE` reports the number of rows MATCHED by the WHERE
  clause: the driver's default connection flags include FOUND_ROWS, so
  `affectedRows` counts matched rows whether or not any stored value
  changes (the separate `changedRows` field would report the latter).
  Zero affected rows therefore coincides with "no row matches", and the
  `/:slug/status` handler's extra "values unchanged" fallback is a
  defensive branch that a sequential run cannot reach.
* Each handler is a pure function `Store → args → Response × Store`.
-/

namespace RayaRayu

/-- Row of the `invitations` table (columns used by the routes). -/
structure Invitation where
  id : Nat
  «from» : Option String
  name : String
  category : Option Int
  phone : Option String
  qty : Option Int
  type : String
  slug : String
  qrcode : String
  rsvp_status : String
  checked_in : Bool
  checked_in_at : Option Nat
  real_qty : Option Int
  is_sent : Bool
  is_copied : Bool
deriving Repr, DecidableEq

/-- Row of the `checkins` table (one log row per invitation). -/
structure Checkin where
  id : Nat
  invitation_id : Nat
  checked_in_qty : Int
  scan_count : Nat
  device_note : Option String
deriving Repr, DecidableEq

/-- Row of the `messages` table. -/
structure Message where
  id : Nat
  invitation_id : Nat
  message : String
deriving Repr, DecidableEq

/-- The relational store: the three tables plus auto-increment counters. -/
structure Store where
  invitations : List Invitation
  checkins : List Checkin
  messages : List Message
  nextInvitationId : Nat
  nextCheckinId : Nat
  nextMessageId : Nat
deriving Repr, DecidableEq

/-- `SELECT * FROM invitations WHERE slug = ? LIMIT 1`. -/
def findInvBySlug (s : Store) (slug : String) : Option Invitation :=
  s.invitations.find? (fun i => i.slug == slug)

/-- `SELECT ... FROM checkins WHERE invitation_id = ? LIMIT 1`. -/
def findCheckinByInv (s : Store) (invId : Nat) : Option Checkin :=
  s.checkins.find? (fun c => c.invitation_id == invId)

/-- JS `required(v)`: defined, non-null and non-empty. -/
def requiredS (v : Option String) : Bool :=
  match v with
  | none => false
  | some s => !(s == "")

/-- JS `isEnum(v, allowed)`. -/
def isEnum (v : String) (allowed : List String) : Bool :=
  allowed.contains v

/-- SQL `COALESCE(a, b, c)` on nullable integers. -/
def coalesce3 (a b c : Option Int) : Option Int :=
  match a with
  | some x => some x
  | none =>
    match b with
    | some y => some y
    | none => c

/- ------------------------------------------------------------------ -/
/- Generic list lemmas used to reason about SQL UPDATE / INSERT.       -/
/- ------------------------------------------------------------------ -/

/-- `find?` commutes with a row update that cannot change the predicate. -/
theorem find?_map_pred {α : Type} (f : α → α) (p : α → Bool)
    (hp : ∀ x, p (f x) = p x) :
    ∀ l : List α, (l.map f).find? p = (l.find? p).map f := by
  intro l
  induction l with
  | nil => rfl
  | cons a t ih =>
    by_cases h : p a = true
    · rw [List.map_cons, List.find?_cons_of_pos _ (by rw [hp]; exact h),
        List.find?_cons_of_pos _ h, Option.map_some']
    · rw [List.map_cons,
        List.find?_cons_of_neg _ (by rw [hp]; simpa using h),
        List.find?_cons_of_neg _ (by simpa using h), ih]

/-- Searching an appended list when the first part has no match. -/
theorem find?_append_of_none {α : Type} (p : α → Bool) (l₁ l₂ : List α)
    (h : l₁.find? p = none) : (l₁ ++ l₂).find? p = l₂.find? p := by
  induction l₁ with
  | nil => rfl
  | cons a t ih =>
    by_cases ha : p a = true
    · rw [List.find?_cons_of_pos _ ha] at h
      exact absurd h (by simp)
    · rw [List.find?_cons_of_neg _ (by simpa using ha)] at h
      rw [List.cons_append, List.find?_cons_of_neg _ (by simpa using ha)]
      exact ih h

/- ------------------------------------------------------------------ -/
/- PATCH /api/invitations/checkin/:slug                                -/
/- ------------------------------------------------------------------ -/

/-- Response of the check-in endpoint. -/
inductive CheckinResp where
  | notFound (error : String)
  | ok (message : String) (name : String) (qty_recorded : Option Int)
      (scan_count : Nat)
deriving Repr, DecidableEq

/-- `qtyToUse`: body override, else the row's `real_qty`, else its `qty`. -/
def resolveQty (inv : Invitation) (checked_in_qty : Option Int) : Option Int :=
  match checked_in_qty with
  | some q => some q
  | none =>
    match inv.real_qty with
    | some r => some r
    | none => inv.qty

/-- Scan count reported and written: 1 on first insert, previous + 1 on update. -/
def nextScanCount (s : Store) (invId : Nat) : Nat :=
  match findCheckinByInv s invId with
  | none => 1
  | some c => c.scan_count + 1

/-- Upsert of the `checkins` log row: INSERT the first row with
`scan_count = 1`, otherwise UPDATE it with the latest scan's quantity,
the incremented count and the latest device note. -/
def upsertCheckinLog (s : Store) (invId : Nat) (qtyToUse : Option Int)
    (device_note : Option String) : Store :=
  match findCheckinByInv s invId with
  | none =>
    { s with
      checkins := s.checkins ++
        [{ id := s.nextCheckinId, invitation_id := invId,
           checked_in_qty := qtyToUse.getD 0, scan_count := 1,
           device_note := device_note }],
      nextCheckinId := s.nextCheckinId + 1 }
  | some c =>
    { s with
      checkins := s.checkins.map (fun x =>
        if x.id == c.id then
          { x with checked_in_qty := qtyToUse.getD 0,
                   scan_count := c.scan_count + 1,
                   device_note := device_note }
        else x) }

/-- The conditional UPDATE of the `invitations` row: on first check-in set
`checked_in = 1`, `checked_in_at = NOW()` and
`real_qty = COALESCE(?, real_qty, qty)`; on a repeat scan refresh only
`checked_in_at`. -/
def markCheckedIn (s : Store) (inv : Invitation) (now : Nat)
    (qtyToUse : Option Int) : Store :=
  if inv.checked_in then
    { s with invitations := s.invitations.map (fun i =>
        if i.id == inv.id then { i with checked_in_at := some now } else i) }
  else
    { s with invitations := s.invitations.map (fun i =>
        if i.id == inv.id then
          { i with checked_in := true, checked_in_at := some now,
                   real_qty := coalesce3 qtyToUse i.real_qty i.qty }
        else i) }

/-- Message of the check-in response, keyed on the pre-read flag. -/
def checkinMessage (alreadyCheckedIn : Bool) : String :=
  if alreadyCheckedIn then "Scan diterima (tamu sudah pernah check-in)."
  else "Check-in berhasil."

/-- Handler of `PATCH /api/invitations/checkin/:slug`. -/
def patchCheckin (s : Store) (now : Nat) (slug : String)
    (checked_in_qty : Option Int) (device_note : Option String) :
    CheckinResp × Store :=
  match findInvBySlug s slug with
  | none => (.notFound "Undangan tidak ditemukan.", s)
  | some inv =>
    let qtyToUse := resolveQty inv checked_in_qty
    let scanCount := nextScanCount s inv.id
    let s1 := upsertCheckinLog s inv.id qtyToUse device_note
    let s2 := markCheckedIn s1 inv now qtyToUse
    (.ok (checkinMessage inv.checked_in) inv.name qtyToUse scanCount, s2)

/- ------------------------------------------------------------------ -/
/- PATCH /api/invitations/:slug/kehadiran                              -/
/- ------------------------------------------------------------------ -/

/-- Response of the manual RSVP endpoint. -/
inductive KehadiranResp where
  | badRequest (error : String)
  | notFound (error : String)
  | ok (message : String) (rsvp_status : String) (jumlah_real : Option Int)
      (qrcode : String)
deriving Repr, DecidableEq

/-- Effect of `UPDATE invitations SET rsvp_status = ?, real_qty = ?
WHERE slug = ?` on the row list. -/
def updateKehadiranRows (l : List Invitation) (slug st : String)
    (jr : Option Int) : List Invitation :=
  l.map (fun i =>
    if i.slug == slug then { i with rsvp_status := st, real_qty := jr } else i)

/-- `affectedRows` reported by an `UPDATE ... WHERE slug = ?`: with the
driver's default FOUND_ROWS flag this is the number of rows matched by
the WHERE clause, independent of whether their stored values change. -/
def matchedRows (l : List Invitation) (slug : String) : Nat :=
  (l.filter (fun i => i.slug == slug)).length

/-- Response of the RSVP endpoint, from the post-UPDATE store and the
affected-row count: zero affected rows reports not-found, otherwise the
updated row is re-read. -/
def kehadiranResponse (s' : Store) (slug : String) (affected : Nat) :
    KehadiranResp :=
  if affected == 0 then .notFound "Undangan tidak ditemukan."
  else
    match findInvBySlug s' slug with
    | some u => .ok "Kehadiran berhasil dikonfirmasi." u.rsvp_status
        u.real_qty u.qrcode
    | none => .ok "Kehadiran berhasil dikonfirmasi." "" none ""

/-- Kehadiran handler after the presence check on `rsvp_status`:
validation against the three enum values; `Tidak Hadir` forces
`jumlah_real` to 0 before the UPDATE. -/
def patchKehadiranSome (s : Store) (slug st : String)
    (jumlah_real : Option Int) : KehadiranResp × Store :=
  if st == "" then (.badRequest "rsvp_status wajib diisi.", s)
  else if !(isEnum st ["Belum Konfirmasi", "Hadir", "Tidak Hadir"]) then
    (.badRequest
      "rsvp_status harus salah satu: 'Belum Konfirmasi', 'Hadir', 'Tidak Hadir'.",
     s)
  else
    let jr := if st == "Tidak Hadir" then some 0 else jumlah_real
    let affected := matchedRows s.invitations slug
    let s' := { s with invitations := updateKehadiranRows s.invitations slug st jr }
    (kehadiranResponse s' slug affected, s')

/-- Handler of `PATCH /api/invitations/:slug/kehadiran`. -/
def patchKehadiran (s : Store) (slug : String) (rsvp_status : Option String)
    (jumlah_real : Option Int) : KehadiranResp × Store :=
  match rsvp_status with
  | none => (.badRequest "rsvp_status wajib diisi.", s)
  | some st => patchKehadiranSome s slug st jumlah_real

/- ------------------------------------------------------------------ -/
/- GET /api/invitations/summary                                        -/
/- ------------------------------------------------------------------ -/

/-- JSON payload of the summary endpoint. -/
structure SummaryResp where
  totalUndangan : Int
  totalTamu : Int
  checkedInUndangan : Int
  checkedInTamu : Int
  belumCheckInUndangan : Int
  belumCheckInTamu : Int
  digital : Int
  cetak : Int
  hadir : Int
  tidak_hadir : Int
  belum_konfirmasi : Int
  total : Int
  estimasi_tamu : Int
deriving Repr, DecidableEq

/-- SQL `SUM` over the non-NULL values of a nullable column: NULL (none)
when no non-NULL value contributes. -/
def sqlSumCol (l : List (Option Int)) : Option Int :=
  match l.filterMap id with
  | [] => none
  | vs => some (vs.foldr (· + ·) 0)

/-- SQL `SUM(CASE ... END)` over a never-NULL expression: NULL exactly
when the table has no rows. -/
def sqlSumCase (l : List Invitation) (f : Invitation → Int) : Option Int :=
  match l with
  | [] => none
  | _ => some ((l.map f).foldr (· + ·) 0)

/-- The JS normalisation `Number(x || 0)` applied to a number-or-NULL. -/
def jsNum (v : Option Int) : Int := v.getD 0

/-- Per-row expression `CASE WHEN checked_in = 1 THEN COALESCE(real_qty, qty)
ELSE 0 END` (NULL when checked in with both quantities NULL). -/
def checkedTamuExpr (i : Invitation) : Option Int :=
  if i.checked_in then
    match i.real_qty with
    | some r => some r
    | none => i.qty
  else some 0

/-- Handler of `GET /api/invitations/summary`: one aggregate SELECT, then
the JS normalisation; the two `belumCheckIn*` fields are computed in the
response as total minus checked-in (the store holds no such column). -/
def getSummary (s : Store) : SummaryResp :=
  let l := s.invitations
  let total_undangan : Int := l.length
  let total_tamu := jsNum (sqlSumCol (l.map (fun i => i.qty)))
  let checked_in_undangan :=
    jsNum (sqlSumCase l (fun i => if i.checked_in then 1 else 0))
  let checked_in_tamu := jsNum (sqlSumCol (l.map checkedTamuExpr))
  { totalUndangan := total_undangan
    totalTamu := total_tamu
    checkedInUndangan := checked_in_undangan
    checkedInTamu := checked_in_tamu
    belumCheckInUndangan := total_undangan - checked_in_undangan
    belumCheckInTamu := total_tamu - checked_in_tamu
    digital := jsNum (sqlSumCase l (fun i => if i.type == "digital" then 1 else 0))
    cetak := jsNum (sqlSumCase l (fun i => if i.type == "cetak" then 1 else 0))
    hadir := jsNum (sqlSumCase l (fun i => if i.rsvp_status == "Hadir" then 1 else 0))
    tidak_hadir :=
      jsNum (sqlSumCase l (fun i => if i.rsvp_status == "Tidak Hadir" then 1 else 0))
    belum_konfirmasi :=
      jsNum (sqlSumCase l (fun i => if i.rsvp_status == "Belum Konfirmasi" then 1 else 0))
    total := total_undangan
    estimasi_tamu := total_tamu }

/- ------------------------------------------------------------------ -/
/- Unique slug generation (both variants)                              -/
/- ------------------------------------------------------------------ -/

/-- `SELECT id FROM invitations WHERE slug = ?` returned at least one row. -/
def slugTaken (s : Store) (slug : String) : Bool :=
  s.invitations.any (fun i => i.slug == slug)

/-- Candidate of the bounded variant: slugified base plus a random
four-digit suffix (the draw is abstracted as a number `r`, mapped into
the source's 1000..9999 range). -/
def slugCandidate (base : String) (r : Nat) : String :=
  base ++ "-" ++ toString (1000 + r % 9000)

/-- Bounded retry loop of `generateUniqueSlug(name, maxAttempts)`:
`attempt` is the current index into the random stream `rand`,
the second argument the remaining attempts. -/
def generateUniqueSlugGo (s : Store) (base : String) (rand : Nat → Nat)
    (attempt : Nat) : Nat → Except String String
  | 0 => .error "Failed to generate unique slug after multiple attempts"
  | remaining + 1 =>
    let slug := slugCandidate base (rand attempt)
    if slugTaken s slug then generateUniqueSlugGo s base rand (attempt + 1) remaining
    else .ok slug

/-- The bounded variant at its default budget `maxAttempts = 5`. -/
def generateUniqueSlug5 (s : Store) (base : String) (rand : Nat → Nat) :
    Except String String :=
  generateUniqueSlugGo s base rand 0 5

/-- Candidate of the unbounded variant: a random six-digit numeric string
(the draw is abstracted as a number `r`, mapped into the source's
100000..999999 range). -/
def candidate6 (r : Nat) : String :=
  toString (100000 + r % 900000)

/-- Unbounded `while (exists)` loop of the other `generateUniqueSlug`,
made total with an explicit fuel: `none` means the loop has not returned
within `fuel` iterations. -/
def generateUniqueSlugLoop (s : Store) (rand : Nat → Nat) :
    Nat → Nat → Option String
  | _, 0 => none
  | i, fuel + 1 =>
    let slug := candidate6 (rand i)
    if slugTaken s slug then generateUniqueSlugLoop s rand (i + 1) fuel
    else some slug

/- ------------------------------------------------------------------ -/
/- POST /api/invitations                                               -/
/- ------------------------------------------------------------------ -/

/-- Response of invitation creation. -/
inductive CreateResp where
  | badRequest (error : String)
  | created (id : Nat) (slug : String)
deriving Repr, DecidableEq

/-- QR image URL derived from the slug (the slug is a numeric string, on
which URI-encoding is the identity). -/
def buildQrUrl (slug : String) : String :=
  "https://api.qrserver.com/v1/create-qr-code/?data=" ++ slug ++ "&size=200x200"

/-- Handler of `POST /api/invitations`: validate `name` and `type`, draw a
unique slug (unbounded variant, hence the fuel and the `Option` result),
then INSERT one row; `rsvp_status` and the check-in state take the store
defaults (`Belum Konfirmasi`, not checked in, `real_qty` NULL). -/
def createInvitation (s : Store) (rand : Nat → Nat) (fuel : Nat)
    («from» : Option String) (name : Option String) (category : Option Int)
    (phone : Option String) (qty : Option Int) (type : Option String) :
    Option (CreateResp × Store) :=
  if !(requiredS name) then some (.badRequest "Field name wajib diisi.", s)
  else if !(requiredS type) || !(isEnum (type.getD "") ["digital", "cetak"]) then
    some (.badRequest "Field type harus 'digital' atau 'cetak'.", s)
  else
    match generateUniqueSlugLoop s rand 0 fuel with
    | none => none
    | some slug =>
      let inv : Invitation :=
        { id := s.nextInvitationId, «from» := «from», name := name.getD "",
          category := category, phone := phone, qty := qty,
          type := type.getD "", slug := slug, qrcode := buildQrUrl slug,
          rsvp_status := "Belum Konfirmasi", checked_in := false,
          checked_in_at := none, real_qty := none,
          is_sent := false, is_copied := false }
      some (.created s.nextInvitationId slug,
            { s with invitations := s.invitations ++ [inv],
                     nextInvitationId := s.nextInvitationId + 1 })

/- ------------------------------------------------------------------ -/
/- PATCH /api/invitations/:slug/status                                 -/
/- ------------------------------------------------------------------ -/

/-- Response of the delivery-flag endpoint. -/
inductive StatusResp where
  | badRequest (error : String)
  | notFound (error : String)
  | okSame (message : String)
  | ok (message : String) (is_sent : Bool) (is_copied : Bool)
deriving Repr, DecidableEq

/-- The SET clause of the delivery-flag UPDATE on one row. -/
def applyStatusRow (i : Invitation) (snt cpd : Option Bool) : Invitation :=
  { i with is_sent := snt.getD i.is_sent, is_copied := cpd.getD i.is_copied }

/-- Response of the delivery-flag endpoint from the post-UPDATE store and
the affected-row count: zero affected rows triggers the follow-up
existence lookup (absent slug reports not-found, an existing row with
unchanged values reports success); otherwise the updated flags are
re-read. -/
def statusResponse (s' : Store) (slug : String) (affected : Nat) :
    StatusResp :=
  if affected == 0 then
    match findInvBySlug s' slug with
    | none => .notFound "Undangan tidak ditemukan."
    | some _ => .okSame "Status tidak berubah (sudah sama)."
  else
    match findInvBySlug s' slug with
    | some u => .ok "Status berhasil diperbarui." u.is_sent u.is_copied
    | none => .ok "Status berhasil diperbarui." false false

/-- Handler of `PATCH /api/invitations/:slug/status`. -/
def patchStatus (s : Store) (slug : String) (snt cpd : Option Bool) :
    StatusResp × Store :=
  if snt.isNone && cpd.isNone then
    (.badRequest "Minimal satu dari is_sent atau is_copied harus disertakan.", s)
  else
    let affected := matchedRows s.invitations slug
    let s' := { s with invitations := s.invitations.map (fun i =>
      if i.slug == slug then applyStatusRow i snt cpd else i) }
    (statusResponse s' slug affected, s')

/- ------------------------------------------------------------------ -/
/- POST /api/messages                                                  -/
/- ------------------------------------------------------------------ -/

/-- Response of message creation. -/
inductive MsgResp where
  | badRequest (message : String)
  | notFound (message : String)
  | created (message : String) (id : Nat)
deriving Repr, DecidableEq

/-- `SELECT id FROM invitations WHERE id = ?` returned at least one row. -/
def invitationIdExists (s : Store) (iid : Nat) : Bool :=
  s.invitations.any (fun i => i.id == iid)

/-- Message creation after the presence check on both body fields:
confirm the referenced invitation exists, then INSERT the message row. -/
def createMessageSome (s : Store) (iid : Nat) (m : String) :
    MsgResp × Store :=
  if m == "" then (.badRequest "invitation_id dan message wajib diisi.", s)
  else if !(invitationIdExists s iid) then
    (.notFound "Invitation tidak ditemukan.", s)
  else
    (.created "Pesan berhasil dikirim." s.nextMessageId,
     { s with
       messages := s.messages ++
         [{ id := s.nextMessageId, invitation_id := iid, message := m }],
       nextMessageId := s.nextMessageId + 1 })

/-- Handler of `POST /api/messages`: validate both fields, then create. -/
def createMessage (s : Store) (invitation_id : Option Nat)
    (msg : Option String) : MsgResp × Store :=
  match invitation_id, msg with
  | some iid, some m => createMessageSome s iid m
  | _, _ => (.badRequest "invitation_id dan message wajib diisi.", s)

/- ------------------------------------------------------------------ -/
/- Further helper lemmas                                               -/
/- ------------------------------------------------------------------ -/

/-- A keyed row update (UPDATE ... WHERE key) moves through `find?` when
the update cannot change the searched predicate. -/
theorem find?_map_keyed_eq {α : Type} (l : List α) (p key : α → Bool)
    (g : α → α) (hg : ∀ x, p (g x) = p x) (a : α)
    (h : l.find? p = some a) (hka : key a = true) :
    (l.map (fun x => if key x then g x else x)).find? p = some (g a) := by
  have hp : ∀ x, p (if key x then g x else x) = p x := by
    intro x
    by_cases hk : key x = true
    · rw [if_pos hk, hg]
    · rw [if_neg hk]
  rw [find?_map_pred _ p hp l, h, Option.map_some']
  simp only [if_pos hka]

/-- `resolveQty` is `COALESCE` of the override with the row quantities. -/
theorem resolveQty_eq_coalesce3 (inv : Invitation) (q : Option Int) :
    resolveQty inv q = coalesce3 q inv.real_qty inv.qty := by
  unfold resolveQty coalesce3
  cases q <;> rfl

/-- `COALESCE` is idempotent in its first argument. -/
theorem coalesce3_idem (a b c : Option Int) :
    coalesce3 (coalesce3 a b c) b c = coalesce3 a b c := by
  cases a <;> cases b <;> cases c <;> rfl

/-- Unfolding of the check-in handler once the invitation row is found. -/
theorem patchCheckin_found (s : Store) (now : Nat) (slug : String)
    (q : Option Int) (d : Option String) (inv : Invitation)
    (hfind : findInvBySlug s slug = some inv) :
    patchCheckin s now slug q d =
      (.ok (checkinMessage inv.checked_in) inv.name (resolveQty inv q)
         (nextScanCount s inv.id),
       markCheckedIn (upsertCheckinLog s inv.id (resolveQty inv q) d) inv now
         (resolveQty inv q)) := by
  unfold patchCheckin
  rw [hfind]

/- ------------------------------------------------------------------ -/
/- Claim theorems                                                      -/
/- ------------------------------------------------------------------ -/

/-- Claim C1: a check-in request on an existing, never-checked-in
invitation (check-in flag false and, per the data-model invariant, no
`checkins` log row yet) sets the check-in flag to true, stamps a non-null
check-in timestamp, creates the `checkins` log row with `scan_count = 1`
and leaves the RSVP status exactly as it was before the request. -/
theorem c1_first_checkin (s : Store) (now : Nat) (slug : String)
    (q : Option Int) (d : Option String) (inv : Invitation)
    (hfind : findInvBySlug s slug = some inv)
    (hflag : inv.checked_in = false)
    (hlog : findCheckinByInv s inv.id = none) :
    (∃ inv',
        findInvBySlug (patchCheckin s now slug q d).2 slug = some inv' ∧
        inv'.checked_in = true ∧ inv'.checked_in_at = some now ∧
        inv'.rsvp_status = inv.rsvp_status) ∧
    (∃ c,
        findCheckinByInv (patchCheckin s now slug q d).2 inv.id = some c ∧
        c.scan_count = 1) := by
  have hstore : (patchCheckin s now slug q d).2 =
      { s with
        invitations := s.invitations.map (fun i =>
          if i.id == inv.id then
            { i with
                checked_in := true
                checked_in_at := some now
                real_qty := coalesce3 (resolveQty inv q) i.real_qty i.qty }
          else i)
        checkins := s.checkins ++
          [{ id := s.nextCheckinId
             invitation_id := inv.id
             checked_in_qty := (resolveQty inv q).getD 0
             scan_count := 1
             device_note := d }]
        nextCheckinId := s.nextCheckinId + 1 } := by
    rw [patchCheckin_found s now slug q d inv hfind]
    unfold markCheckedIn upsertCheckinLog
    rw [hlog, if_neg (by rw [hflag]; exact Bool.false_ne_true)]
  rw [hstore]
  constructor
  · exact ⟨_, find?_map_keyed_eq s.invitations (fun i => i.slug == slug)
      (fun i => i.id == inv.id)
      (fun i => { i with
          checked_in := true
          checked_in_at := some now
          real_qty := coalesce3 (resolveQty inv q) i.real_qty i.qty })
      (fun x => rfl) inv hfind (beq_self_eq_true inv.id), rfl, rfl, rfl⟩
  · refine ⟨{
        id := s.nextCheckinId
        invitation_id := inv.id
        checked_in_qty := (resolveQty inv q).getD 0
        scan_count := 1
        device_note := d }, ?_, rfl⟩
    show (s.checkins ++ [_]).find? (fun c : Checkin => c.invitation_id == inv.id) = _
    rw [find?_append_of_none _ s.checkins _ hlog]
    exact List.find?_cons_of_pos _ (beq_self_eq_true inv.id)

/-- Concrete fixture: a fresh invitation (slug `a`, qty 4, type digital,
not checked in, `real_qty` NULL). -/
def invA : Invitation :=
  { id := 1, «from» := none, name := "A", category := none, phone := none,
    qty := some 4, type := "digital", slug := "a", qrcode := "q",
    rsvp_status := "Belum Konfirmasi", checked_in := false,
    checked_in_at := none, real_qty := none, is_sent := false,
    is_copied := false }

/-- Fixture store holding only `invA`. -/
def store1 : Store :=
  { invitations := [invA], checkins := [], messages := [],
    nextInvitationId := 2, nextCheckinId := 1, nextMessageId := 1 }

/-- Witness for C1: checking in the fresh invitation `a` of `store1`. -/
theorem c1_first_checkin_w :
    (∃ inv',
        findInvBySlug (patchCheckin store1 7 "a" none none).2 "a" = some inv' ∧
        inv'.checked_in = true ∧ inv'.checked_in_at = some 7 ∧
        inv'.rsvp_status = invA.rsvp_status) ∧
    (∃ c,
        findCheckinByInv (patchCheckin store1 7 "a" none none).2 invA.id = some c ∧
        c.scan_count = 1) :=
  c1_first_checkin store1 7 "a" none none invA (by decide) (by decide) (by decide)

/-- Concrete fixture: an invitation (slug `b`) whose confirmed quantity
`real_qty = 5` is already set while it is not yet checked in. -/
def invB : Invitation :=
  { id := 1, «from» := none, name := "B", category := none, phone := none,
    qty := some 4, type := "digital", slug := "b", qrcode := "q",
    rsvp_status := "Hadir", checked_in := false, checked_in_at := none,
    real_qty := some 5, is_sent := false, is_copied := false }

/-- Fixture store holding only `invB`. -/
def store2 : Store :=
  { invitations := [invB], checkins := [], messages := [],
    nextInvitationId := 2, nextCheckinId := 1, nextMessageId := 1 }

/-- Claim C2, counterexample: invitation `b` has `real_qty = 5` already set
and is not yet checked in; its first check-in with the explicit override
`checked_in_qty = 3` stores `real_qty = 3` — the already-set confirmed
quantity is overwritten, contradicting the claim that it never is. -/
theorem c2_checkin_override_cex :
    (findInvBySlug store2 "b").map Invitation.real_qty = some (some 5) ∧
    (findInvBySlug store2 "b").map Invitation.checked_in = some false ∧
    (findInvBySlug (patchCheckin store2 9 "b" (some 3) none).2 "b").map
      Invitation.real_qty = some (some 3) := by decide

/-- The check-in log upsert leaves the `invitations` table untouched. -/
theorem upsertCheckinLog_invitations (s : Store) (invId : Nat)
    (q : Option Int) (d : Option String) :
    (upsertCheckinLog s invId q d).invitations = s.invitations := by
  cases h : findCheckinByInv s invId <;> simp [upsertCheckinLog, h]

/-- Claim C2 (amended): on a first check-in the confirmed quantity becomes
`COALESCE(override, previous real_qty, qty)`; hence an already-set
`real_qty` is preserved exactly when no explicit `checked_in_qty` override
is supplied, while an explicit override always lands in `real_qty`,
overwriting any previously set value. -/
theorem c2_first_checkin_real_qty (s : Store) (now : Nat) (slug : String)
    (q : Option Int) (d : Option String) (inv : Invitation)
    (hfind : findInvBySlug s slug = some inv)
    (hflag : inv.checked_in = false) :
    ∃ inv',
      findInvBySlug (patchCheckin s now slug q d).2 slug = some inv' ∧
      inv'.real_qty = resolveQty inv q ∧
      (q = none → ∀ r : Int, inv.real_qty = some r → inv'.real_qty = some r) := by
  have hinvs : (patchCheckin s now slug q d).2.invitations =
      s.invitations.map (fun i =>
        if i.id == inv.id then
          { i with
              checked_in := true
              checked_in_at := some now
              real_qty := coalesce3 (resolveQty inv q) i.real_qty i.qty }
        else i) := by
    rw [patchCheckin_found s now slug q d inv hfind]
    unfold markCheckedIn
    rw [if_neg (by rw [hflag]; exact Bool.false_ne_true)]
    dsimp only
    rw [upsertCheckinLog_invitations]
  refine ⟨{ inv with
      checked_in := true
      checked_in_at := some now
      real_qty := coalesce3 (resolveQty inv q) inv.real_qty inv.qty }, ?_, ?_, ?_⟩
  · show findInvBySlug _ slug = _
    unfold findInvBySlug
    rw [hinvs]
    exact find?_map_keyed_eq s.invitations (fun i => i.slug == slug)
      (fun i => i.id == inv.id)
      (fun i => { i with
          checked_in := true
          checked_in_at := some now
          real_qty := coalesce3 (resolveQty inv q) i.real_qty i.qty })
      (fun x => rfl) inv hfind (beq_self_eq_true inv.id)
  · show coalesce3 (resolveQty inv q) inv.real_qty inv.qty = resolveQty inv q
    rw [resolveQty_eq_coalesce3, coalesce3_idem]
  · intro hq r hr
    show coalesce3 (resolveQty inv q) inv.real_qty inv.qty = some r
    subst hq
    rw [resolveQty_eq_coalesce3, coalesce3_idem, hr]
    rfl

/-- Witness for the amended C2: invitation `b` of `store2` has
`real_qty = 5` set; its first check-in without an override keeps it. -/
theorem c2_first_checkin_real_qty_w :
    ∃ inv',
      findInvBySlug (patchCheckin store2 11 "b" none none).2 "b" = some inv' ∧
      inv'.real_qty = resolveQty invB none ∧
      (none = (none : Option Int) → ∀ r : Int, invB.real_qty = some r →
        inv'.real_qty = some r) :=
  c2_first_checkin_real_qty store2 11 "b" none none invB (by decide) (by decide)

/-- Claim C4: a repeat scan on an already-checked-in invitation (log row
present with count `n`) rewrites the log row to count `n + 1`, with the
latest scan's recorded quantity and device note, and on the invitation row
changes only the check-in timestamp — in particular the check-in flag stays
true and `real_qty` keeps its prior value even when the scan carries a
`checked_in_qty` override. -/
theorem c4_repeat_scan (s : Store) (now : Nat) (slug : String)
    (q : Option Int) (d : Option String) (inv : Invitation) (c : Checkin)
    (hfind : findInvBySlug s slug = some inv)
    (hflag : inv.checked_in = true)
    (hlog : findCheckinByInv s inv.id = some c) :
    (∃ c',
        findCheckinByInv (patchCheckin s now slug q d).2 inv.id = some c' ∧
        c'.scan_count = c.scan_count + 1 ∧
        c'.checked_in_qty = (resolveQty inv q).getD 0 ∧
        c'.device_note = d) ∧
    findInvBySlug (patchCheckin s now slug q d).2 slug =
      some { inv with checked_in_at := some now } := by
  have hstore : (patchCheckin s now slug q d).2 =
      { s with
        invitations := s.invitations.map (fun i =>
          if i.id == inv.id then { i with checked_in_at := some now } else i)
        checkins := s.checkins.map (fun x =>
          if x.id == c.id then
            { x with
                checked_in_qty := (resolveQty inv q).getD 0
                scan_count := c.scan_count + 1
                device_note := d }
          else x) } := by
    rw [patchCheckin_found s now slug q d inv hfind]
    unfold markCheckedIn upsertCheckinLog
    rw [hlog, if_pos hflag]
  rw [hstore]
  constructor
  · exact ⟨_, find?_map_keyed_eq s.checkins (fun x => x.invitation_id == inv.id)
      (fun x => x.id == c.id)
      (fun x => { x with
          checked_in_qty := (resolveQty inv q).getD 0
          scan_count := c.scan_count + 1
          device_note := d })
      (fun x => rfl) c hlog (beq_self_eq_true c.id), rfl, rfl, rfl⟩
  · exact find?_map_keyed_eq s.invitations (fun i => i.slug == slug)
      (fun i => i.id == inv.id)
      (fun i => { i with checked_in_at := some now })
      (fun x => rfl) inv hfind (beq_self_eq_true inv.id)

/-- Concrete fixture: invitation `c` already checked in at time 5 with
confirmed quantity 4. -/
def invC : Invitation :=
  { id := 1, «from» := none, name := "C", category := none, phone := none,
    qty := some 4, type := "digital", slug := "c", qrcode := "q",
    rsvp_status := "Hadir", checked_in := true, checked_in_at := some 5,
    real_qty := some 4, is_sent := false, is_copied := false }

/-- Fixture log row of `invC`: first scan recorded quantity 4. -/
def logC : Checkin :=
  { id := 1, invitation_id := 1, checked_in_qty := 4, scan_count := 1,
    device_note := none }

/-- Fixture store holding the checked-in `invC` and its log row. -/
def store3 : Store :=
  { invitations := [invC], checkins := [logC], messages := [],
    nextInvitationId := 2, nextCheckinId := 2, nextMessageId := 1 }

/-- Witness for C4: the spec's own example — second scan with override 3
on the invitation checked in with quantity 4. -/
theorem c4_repeat_scan_w :
    (∃ c',
        findCheckinByInv (patchCheckin store3 12 "c" (some 3) none).2 invC.id =
          some c' ∧
        c'.scan_count = logC.scan_count + 1 ∧
        c'.checked_in_qty = (resolveQty invC (some 3)).getD 0 ∧
        c'.device_note = none) ∧
    findInvBySlug (patchCheckin store3 12 "c" (some 3) none).2 "c" =
      some { invC with checked_in_at := some 12 } :=
  c4_repeat_scan store3 12 "c" (some 3) none invC logC (by decide) (by decide)
    (by decide)

/-- A map that fixes every element of a list is the identity on it. -/
theorem map_eq_self {α : Type} (l : List α) (f : α → α)
    (h : ∀ x ∈ l, f x = x) : l.map f = l := by
  induction l with
  | nil => rfl
  | cons a t ih =>
    rw [List.map_cons, h a (List.mem_cons_self a t),
      ih (fun x hx => h x (List.mem_cons_of_mem a hx))]

/-- Unfolding of the kehadiran handler once the status passes validation;
`jr'` is the quantity after the `Tidak Hadir` forcing rule. -/
theorem patchKehadiran_valid (s : Store) (slug st : String) (jr jr' : Option Int)
    (hne : (st == "") = false)
    (henum : isEnum st ["Belum Konfirmasi", "Hadir", "Tidak Hadir"] = true)
    (hjr : jr' = if st == "Tidak Hadir" then some 0 else jr) :
    patchKehadiran s slug (some st) jr =
      (kehadiranResponse
         { s with invitations := updateKehadiranRows s.invitations slug st jr' }
         slug
         (matchedRows s.invitations slug),
       { s with invitations := updateKehadiranRows s.invitations slug st jr' }) := by
  subst hjr
  show patchKehadiranSome s slug st jr = _
  unfold patchKehadiranSome
  rw [hne, henum]
  rfl

/-- Claim C3: a manual RSVP update to `Tidak Hadir` on an existing slug
stores `real_qty = 0` regardless of the supplied `jumlah_real`. -/
theorem c3_tidak_hadir_forces_zero (s : Store) (slug : String)
    (jr : Option Int) (inv : Invitation)
    (hfind : findInvBySlug s slug = some inv) :
    (∃ inv',
        findInvBySlug (patchKehadiran s slug (some "Tidak Hadir") jr).2 slug =
          some inv' ∧
        inv'.rsvp_status = "Tidak Hadir" ∧ inv'.real_qty = some 0) ∧
    (∀ i ∈ (patchKehadiran s slug (some "Tidak Hadir") jr).2.invitations,
        i.slug = slug → i.real_qty = some 0) := by
  have hka : (inv.slug == slug) = true := by
    have h := hfind
    unfold findInvBySlug at h
    exact @List.find?_some Invitation (fun i => i.slug == slug) inv
      s.invitations h
  have hsl : (patchKehadiran s slug (some "Tidak Hadir") jr).2 =
      { s with invitations :=
          updateKehadiranRows s.invitations slug "Tidak Hadir" (some 0) } := by
    rw [patchKehadiran_valid s slug "Tidak Hadir" jr (some 0) (by decide)
      (by decide) rfl]
  constructor
  · refine ⟨{ inv with
        rsvp_status := "Tidak Hadir"
        real_qty := some 0 }, ?_, rfl, rfl⟩
    unfold findInvBySlug
    rw [hsl]
    show (updateKehadiranRows s.invitations slug "Tidak Hadir" (some 0)).find? _ = _
    unfold updateKehadiranRows
    exact find?_map_keyed_eq s.invitations (fun i => i.slug == slug)
      (fun i => i.slug == slug)
      (fun i => { i with rsvp_status := "Tidak Hadir", real_qty := some 0 })
      (fun x => rfl) inv hfind hka
  · intro i hi hislug
    rw [hsl] at hi
    replace hi : i ∈ updateKehadiranRows s.invitations slug "Tidak Hadir" (some 0) := hi
    unfold updateKehadiranRows at hi
    rcases List.mem_map.1 hi with ⟨j, hj, rfl⟩
    by_cases hjs : (j.slug == slug) = true
    · rw [if_pos hjs]
    · rw [if_neg hjs] at hislug
      exact absurd (beq_iff_eq.mpr hislug) (by simpa using hjs)

/-- Concrete fixture: invitation `d` with RSVP `Hadir` and `real_qty = 2`
already stored. -/
def invD : Invitation :=
  { id := 1, «from» := none, name := "D", category := none, phone := none,
    qty := some 4, type := "cetak", slug := "d", qrcode := "q",
    rsvp_status := "Hadir", checked_in := false, checked_in_at := none,
    real_qty := some 2, is_sent := false, is_copied := false }

/-- Fixture store holding only `invD`. -/
def store4 : Store :=
  { invitations := [invD], checkins := [], messages := [],
    nextInvitationId := 2, nextCheckinId := 1, nextMessageId := 1 }

/-- Witness for C3: RSVP `Tidak Hadir` with `jumlah_real = 9` on `store4`
still stores `real_qty = 0`. -/
theorem c3_tidak_hadir_forces_zero_w :
    (∃ inv',
        findInvBySlug (patchKehadiran store4 "d" (some "Tidak Hadir") (some 9)).2
          "d" = some inv' ∧
        inv'.rsvp_status = "Tidak Hadir" ∧ inv'.real_qty = some 0) ∧
    (∀ i ∈ (patchKehadiran store4 "d" (some "Tidak Hadir") (some 9)).2.invitations,
        i.slug = "d" → i.real_qty = some 0) :=
  c3_tidak_hadir_forces_zero store4 "d" (some 9) invD (by decide)

/-- The kehadiran response is the not-found error exactly when the UPDATE
reported zero affected rows. -/
theorem kehadiranResponse_notFound_iff (s2 : Store) (slug : String)
    (aff : Nat) :
    kehadiranResponse s2 slug aff =
      KehadiranResp.notFound "Undangan tidak ditemukan." ↔ aff = 0 := by
  unfold kehadiranResponse
  constructor
  · intro h
    by_cases h0 : aff = 0
    · exact h0
    · rw [if_neg (by simpa using h0)] at h
      cases hf : findInvBySlug s2 slug <;> simp [hf] at h
  · intro h0
    rw [if_pos (by simpa using h0)]

/-- Claim C8: with a valid `rsvp_status`, the kehadiran endpoint reports
the not-found error exactly when no invitation row matches the slug — the
driver counts matched rows, so an existing slug always yields a nonzero
affected count — and when no row matches, the store is left unchanged. -/
theorem c8_kehadiran_notfound (s : Store) (slug st : String) (jr : Option Int)
    (hne : (st == "") = false)
    (henum : isEnum st ["Belum Konfirmasi", "Hadir", "Tidak Hadir"] = true) :
    ((patchKehadiran s slug (some st) jr).1 =
        KehadiranResp.notFound "Undangan tidak ditemukan." ↔
      findInvBySlug s slug = none) ∧
    (findInvBySlug s slug = none →
      (patchKehadiran s slug (some st) jr).2 = s) := by
  rw [patchKehadiran_valid s slug st jr
    (if st == "Tidak Hadir" then some 0 else jr) hne henum rfl]
  have hmatched : (matchedRows s.invitations slug = 0) ↔
      findInvBySlug s slug = none := by
    unfold matchedRows findInvBySlug
    rw [List.length_eq_zero, List.filter_eq_nil_iff, List.find?_eq_none]
  constructor
  · exact (kehadiranResponse_notFound_iff _ slug _).trans hmatched
  · intro hnone
    have hnone' : s.invitations.find? (fun i => i.slug == slug) = none := hnone
    have hnomatch := List.find?_eq_none.mp hnone'
    have hrows : updateKehadiranRows s.invitations slug st
        (if st == "Tidak Hadir" then some 0 else jr) = s.invitations := by
      unfold updateKehadiranRows
      refine map_eq_self _ _ (fun i hi => ?_)
      rw [if_neg (hnomatch i hi)]
    rw [hrows]

/-- Witness for C8: slug `x` is absent from `store4`, so the endpoint
reports not-found and the store is returned unchanged. -/
theorem c8_kehadiran_notfound_w :
    ((patchKehadiran store4 "x" (some "Hadir") (some 2)).1 =
        KehadiranResp.notFound "Undangan tidak ditemukan." ↔
      findInvBySlug store4 "x" = none) ∧
    (findInvBySlug store4 "x" = none →
      (patchKehadiran store4 "x" (some "Hadir") (some 2)).2 = store4) :=
  c8_kehadiran_notfound store4 "x" "Hadir" (some 2) (by decide) (by decide)

/-- Claim C5: for a store with zero invitations the summary reports 0 for
every count and sum, and for every store the derived not-yet-checked-in
fields equal total minus checked-in, computed in the response (the store
holds no such column). -/
theorem c5_summary_zero_and_derived (s : Store) :
    (s.invitations = [] →
      getSummary s = ⟨0, 0, 0, 0, 0, 0, 0, 0, 0, 0, 0, 0, 0⟩) ∧
    (getSummary s).belumCheckInUndangan =
      (getSummary s).totalUndangan - (getSummary s).checkedInUndangan ∧
    (getSummary s).belumCheckInTamu =
      (getSummary s).totalTamu - (getSummary s).checkedInTamu := by
  refine ⟨?_, rfl, rfl⟩
  intro h
  unfold getSummary
  rw [h]
  rfl

/-- Fixture: the empty store. -/
def store0 : Store :=
  { invitations := [], checkins := [], messages := [],
    nextInvitationId := 1, nextCheckinId := 1, nextMessageId := 1 }

/-- Witness for C5: on the empty store the summary is all zeros and the
derived fields match. -/
theorem c5_summary_zero_and_derived_w :
    getSummary store0 = ⟨0, 0, 0, 0, 0, 0, 0, 0, 0, 0, 0, 0, 0⟩ ∧
    (getSummary store0).belumCheckInUndangan =
      (getSummary store0).totalUndangan - (getSummary store0).checkedInUndangan ∧
    (getSummary store0).belumCheckInTamu =
      (getSummary store0).totalTamu - (getSummary store0).checkedInTamu :=
  ⟨(c5_summary_zero_and_derived store0).1 rfl,
   (c5_summary_zero_and_derived store0).2.1,
   (c5_summary_zero_and_derived store0).2.2⟩

/-- The bounded retry loop returns only slugs free in the store. -/
theorem generateUniqueSlugGo_ok_free (s : Store) (base : String)
    (rand : Nat → Nat) :
    ∀ fuel attempt slug,
      generateUniqueSlugGo s base rand attempt fuel = .ok slug →
      slugTaken s slug = false := by
  intro fuel
  induction fuel with
  | zero =>
    intro attempt slug h
    simp [generateUniqueSlugGo] at h
  | succ n ih =>
    intro attempt slug h
    simp only [generateUniqueSlugGo] at h
    by_cases hc : slugTaken s (slugCandidate base (rand attempt)) = true
    · rw [if_pos hc] at h
      exact ih (attempt + 1) slug h
    · rw [if_neg hc] at h
      cases h
      simpa using hc

/-- The bounded retry loop fails with the exhaustion error when every
inspected candidate collides. -/
theorem generateUniqueSlugGo_all_taken (s : Store) (base : String)
    (rand : Nat → Nat) :
    ∀ fuel attempt,
      (∀ k, k < fuel →
        slugTaken s (slugCandidate base (rand (attempt + k))) = true) →
      generateUniqueSlugGo s base rand attempt fuel =
        .error "Failed to generate unique slug after multiple attempts" := by
  intro fuel
  induction fuel with
  | zero => intro attempt _; rfl
  | succ n ih =>
    intro attempt h
    have h0 := h 0 (Nat.succ_pos n)
    rw [Nat.add_zero] at h0
    simp only [generateUniqueSlugGo]
    rw [if_pos h0]
    exact ih (attempt + 1) (fun k hk => by
      have hx := h (k + 1) (Nat.succ_lt_succ hk)
      rwa [show attempt + (k + 1) = attempt + 1 + k by omega] at hx)

/-- The bounded retry loop reads only the draws of its attempt window. -/
theorem generateUniqueSlugGo_congr (s : Store) (base : String) :
    ∀ fuel attempt (rand rand' : Nat → Nat),
      (∀ i, i < attempt + fuel → rand i = rand' i) →
      generateUniqueSlugGo s base rand attempt fuel =
        generateUniqueSlugGo s base rand' attempt fuel := by
  intro fuel
  induction fuel with
  | zero => intro attempt rand rand' _; rfl
  | succ n ih =>
    intro attempt rand rand' h
    have ha : rand attempt = rand' attempt := h attempt (by omega)
    simp only [generateUniqueSlugGo, ha]
    by_cases hc : slugTaken s (slugCandidate base (rand' attempt)) = true
    · simp only [if_pos hc]
      exact ih (attempt + 1) rand rand' (fun i hi => h i (by omega))
    · simp only [if_neg hc]

/-- The unbounded loop returns only slugs free in the store. -/
theorem generateUniqueSlugLoop_some_free (s : Store) (rand : Nat → Nat) :
    ∀ fuel i slug,
      generateUniqueSlugLoop s rand i fuel = some slug →
      slugTaken s slug = false := by
  intro fuel
  induction fuel with
  | zero =>
    intro i slug h
    simp [generateUniqueSlugLoop] at h
  | succ n ih =>
    intro i slug h
    simp only [generateUniqueSlugLoop] at h
    by_cases hc : slugTaken s (candidate6 (rand i)) = true
    · rw [if_pos hc] at h
      exact ih (i + 1) slug h
    · rw [if_neg hc] at h
      cases h
      simpa using hc

/-- The unbounded loop never returns while every draw collides: this is
the non-termination of the source's `while (exists)` loop. -/
theorem generateUniqueSlugLoop_none (s : Store) (rand : Nat → Nat)
    (h : ∀ i, slugTaken s (candidate6 (rand i)) = true) :
    ∀ fuel i, generateUniqueSlugLoop s rand i fuel = none := by
  intro fuel
  induction fuel with
  | zero => intro i; rfl
  | succ n ih =>
    intro i
    simp only [generateUniqueSlugLoop]
    rw [if_pos (h i)]
    exact ih (i + 1)

/-- The unbounded loop succeeds once some draw in its window is free. -/
theorem generateUniqueSlugLoop_succeeds (s : Store) (rand : Nat → Nat) :
    ∀ fuel i,
      (∃ k, k < fuel ∧ slugTaken s (candidate6 (rand (i + k))) = false) →
      ∃ slug, generateUniqueSlugLoop s rand i fuel = some slug ∧
        slugTaken s slug = false := by
  intro fuel
  induction fuel with
  | zero =>
    rintro i ⟨k, hk, _⟩
    exact absurd hk (Nat.not_lt_zero k)
  | succ n ih =>
    rintro i ⟨k, hk, hfree⟩
    simp only [generateUniqueSlugLoop]
    by_cases hc : slugTaken s (candidate6 (rand i)) = true
    · rw [if_pos hc]
      rcases k with _ | k'
      · rw [Nat.add_zero] at hfree
        rw [hfree] at hc
        cases hc
      · exact ih (i + 1) ⟨k', by omega,
          by rwa [show i + 1 + k' = i + (k' + 1) by omega]⟩
    · rw [if_neg hc]
      exact ⟨_, rfl, by simpa using hc⟩

/-- Claim C6: the bounded slug generator reads at most its first five
draws and either returns a collision-free slug or fails with the explicit
exhaustion error; the unbounded generator returns only collision-free
slugs, never returns (for any fuel) while every draw collides, and
terminates once some draw is collision-free. -/
theorem c6_slug_generation :
    (∀ (s : Store) (base : String) (rand : Nat → Nat) (slug : String),
      generateUniqueSlug5 s base rand = .ok slug → slugTaken s slug = false) ∧
    (∀ (s : Store) (base : String) (rand : Nat → Nat),
      (∀ i, i < 5 → slugTaken s (slugCandidate base (rand i)) = true) →
      generateUniqueSlug5 s base rand =
        .error "Failed to generate unique slug after multiple attempts") ∧
    (∀ (s : Store) (base : String) (rand rand' : Nat → Nat),
      (∀ i, i < 5 → rand i = rand' i) →
      generateUniqueSlug5 s base rand = generateUniqueSlug5 s base rand') ∧
    (∀ (s : Store) (rand : Nat → Nat) (fuel i : Nat) (slug : String),
      generateUniqueSlugLoop s rand i fuel = some slug →
      slugTaken s slug = false) ∧
    (∀ (s : Store) (rand : Nat → Nat),
      (∀ i, slugTaken s (candidate6 (rand i)) = true) →
      ∀ fuel i, generateUniqueSlugLoop s rand i fuel = none) ∧
    (∀ (s : Store) (rand : Nat → Nat) (j : Nat),
      slugTaken s (candidate6 (rand j)) = false →
      ∃ slug, generateUniqueSlugLoop s rand 0 (j + 1) = some slug ∧
        slugTaken s slug = false) := by
  refine ⟨?_, ?_, ?_, ?_, ?_, ?_⟩
  · intro s base rand slug h
    exact generateUniqueSlugGo_ok_free s base rand 5 0 slug h
  · intro s base rand h
    exact generateUniqueSlugGo_all_taken s base rand 5 0
      (fun k hk => by simpa using h k hk)
  · intro s base rand rand' h
    exact generateUniqueSlugGo_congr s base 5 0 rand rand'
      (fun i hi => h i (by simpa using hi))
  · intro s rand fuel i slug h
    exact generateUniqueSlugLoop_some_free s rand fuel i slug h
  · intro s rand h fuel i
    exact generateUniqueSlugLoop_none s rand h fuel i
  · intro s rand j hfree
    exact generateUniqueSlugLoop_succeeds s rand (j + 1) 0
      ⟨j, Nat.lt_succ_self j, by simpa using hfree⟩

/-- Fixture: an invitation occupying the slug `g-1000`, the candidate the
bounded generator derives from base `g` and the constant draw 0. -/
def invE : Invitation :=
  { id := 1, «from» := none, name := "E", category := none, phone := none,
    qty := none, type := "digital", slug := "g-1000", qrcode := "q",
    rsvp_status := "Belum Konfirmasi", checked_in := false,
    checked_in_at := none, real_qty := none, is_sent := false,
    is_copied := false }

/-- Fixture store holding only `invE`. -/
def store5 : Store :=
  { invitations := [invE], checkins := [], messages := [],
    nextInvitationId := 2, nextCheckinId := 1, nextMessageId := 1 }

/-- Witness for C6: with every draw colliding on `store5`, the bounded
generator exhausts its five attempts and returns the explicit error. -/
theorem c6_slug_generation_w :
    generateUniqueSlug5 store5 "g" (fun _ => 0) =
      .error "Failed to generate unique slug after multiple attempts" :=
  by
  have hall : ∀ i : Nat, i < 5 →
      slugTaken store5 (slugCandidate "g" ((fun _ => 0) i)) = true := by
    intro i _
    show slugTaken store5 (slugCandidate "g" 0) = true
    decide
  exact c6_slug_generation.2.1 store5 "g" (fun _ => 0) hall

/-- Claim C7: an invitation-creation request whose guest name is missing
or empty, or whose delivery type is not exactly `digital` or `cetak`,
yields a client validation error naming the offending field, and the
store is returned unchanged — no row is inserted. -/
theorem c7_create_validation (s : Store) (rand : Nat → Nat) (fuel : Nat)
    (sender name : Option String) (category : Option Int)
    (phone : Option String) (qty : Option Int) (ty : Option String)
    (hbad : requiredS name = false ∨ requiredS ty = false ∨
      isEnum (ty.getD "") ["digital", "cetak"] = false) :
    ∃ e, createInvitation s rand fuel sender name category phone qty ty =
        some (.badRequest e, s) ∧
      (e = "Field name wajib diisi." ∨
       e = "Field type harus 'digital' atau 'cetak'.") := by
  unfold createInvitation
  by_cases hname : requiredS name = true
  · have hty : (!(requiredS ty) || !(isEnum (ty.getD "") ["digital", "cetak"]))
        = true := by
      rcases hbad with h | h | h
      · rw [hname] at h
        cases h
      · simp [h]
      · simp [h]
    refine ⟨"Field type harus 'digital' atau 'cetak'.", ?_, Or.inr rfl⟩
    rw [hname, hty]
    rfl
  · have hname' : requiredS name = false := by
      simpa using hname
    refine ⟨"Field name wajib diisi.", ?_, Or.inl rfl⟩
    rw [hname']
    rfl

/-- Witness for C7: type `email` is rejected and `store1` comes back
unchanged. -/
theorem c7_create_validation_w :
    ∃ e, createInvitation store1 (fun _ => 0) 1 none (some "G") none none
        none (some "email") = some (.badRequest e, store1) ∧
      (e = "Field name wajib diisi." ∨
       e = "Field type harus 'digital' atau 'cetak'.") :=
  c7_create_validation store1 (fun _ => 0) 1 none (some "G") none none none
    (some "email") (Or.inr (Or.inr (by decide)))

/-- Unfolding of the delivery-flag handler once the guard passes. -/
theorem patchStatus_valid (s : Store) (slug : String) (snt cpd : Option Bool)
    (hguard : (snt.isNone && cpd.isNone) = false) :
    patchStatus s slug snt cpd =
      (statusResponse
        { s with invitations := s.invitations.map (fun i =>
            if i.slug == slug then applyStatusRow i snt cpd else i) }
        slug
        (matchedRows s.invitations slug),
       { s with invitations := s.invitations.map (fun i =>
           if i.slug == slug then applyStatusRow i snt cpd else i) }) := by
  unfold patchStatus
  rw [hguard]
  rfl

/-- When the post-UPDATE lookup still finds a row, the delivery-flag
response is never the not-found error. -/
theorem statusResponse_ne_notFound (s' : Store) (slug : String) (aff : Nat)
    (inv : Invitation) (hf : findInvBySlug s' slug = some inv) :
    ∀ e, statusResponse s' slug aff ≠ StatusResp.notFound e := by
  intro e he
  unfold statusResponse at he
  by_cases h0 : (aff == 0) = true
  · rw [if_pos h0, hf] at he
    cases he
  · rw [if_neg h0, hf] at he
    cases he

/-- Fixture: invitation `f` with both delivery flags already true. -/
def invF : Invitation :=
  { id := 1, «from» := none, name := "F", category := none, phone := none,
    qty := some 1, type := "digital", slug := "f", qrcode := "q",
    rsvp_status := "Belum Konfirmasi", checked_in := false,
    checked_in_at := none, real_qty := none, is_sent := true,
    is_copied := true }

/-- Fixture store holding only `invF`. -/
def store6 : Store :=
  { invitations := [invF], checkins := [], messages := [],
    nextInvitationId := 2, nextCheckinId := 1, nextMessageId := 1 }

/-- Claim C9, counterexample: slug `f` exists and its stored `is_sent`
flag already equals the requested value, so the UPDATE changes no stored
value; yet the response is the ordinary update success, not the
no-change message — the driver counts matched rows, so the zero-affected
branch carrying `Status tidak berubah (sudah sama).` is not taken for an
existing row. -/
theorem c9_status_noop_cex :
    (findInvBySlug store6 "f").map Invitation.is_sent = some true ∧
    (patchStatus store6 "f" (some true) none).1 =
      StatusResp.ok "Status berhasil diperbarui." true true := by decide

/-- Claim C9 (amended): with at least one flag supplied, the delivery-flag
endpoint reports the not-found error exactly when no row has the slug
(the follow-up lookup confirms absence); an existing row — even one whose
stored flags already equal the request — yields the ordinary success
response with the re-read flags, because the driver reports matched rows
and the zero-affected no-change branch is unreachable for an existing
row. -/
theorem c9_status_notfound_exact (s : Store) (slug : String)
    (snt cpd : Option Bool) (hsome : snt.isSome ∨ cpd.isSome) :
    ((patchStatus s slug snt cpd).1 =
        StatusResp.notFound "Undangan tidak ditemukan." ↔
      findInvBySlug s slug = none) ∧
    (∀ inv, findInvBySlug s slug = some inv →
      (patchStatus s slug snt cpd).1 =
        StatusResp.ok "Status berhasil diperbarui."
          (applyStatusRow inv snt cpd).is_sent
          (applyStatusRow inv snt cpd).is_copied) := by
  have hguard : (snt.isNone && cpd.isNone) = false := by
    rcases hsome with h | h <;> cases snt <;> cases cpd <;> simp_all
  have hpred : ∀ x : Invitation,
      ((if x.slug == slug then applyStatusRow x snt cpd else x).slug == slug)
        = (x.slug == slug) := by
    intro x
    by_cases hx : (x.slug == slug) = true
    · rw [if_pos hx]
      rfl
    · rw [if_neg hx]
  have hfindmap : ∀ inv, findInvBySlug s slug = some inv →
      findInvBySlug
        { s with invitations := s.invitations.map (fun i =>
            if i.slug == slug then applyStatusRow i snt cpd else i) } slug =
        some (if inv.slug == slug then applyStatusRow inv snt cpd else inv) := by
    intro inv hinv
    have hinv' : s.invitations.find? (fun i => i.slug == slug) = some inv := hinv
    show (s.invitations.map _).find? _ = _
    rw [find?_map_pred _ _ hpred s.invitations, hinv', Option.map_some']
  rw [patchStatus_valid s slug snt cpd hguard]
  constructor
  · constructor
    · intro he
      cases hcase : findInvBySlug s slug with
      | none => rfl
      | some inv =>
        exact absurd he (statusResponse_ne_notFound _ slug _ _
          (hfindmap inv hcase) _)
    · intro hnone
      have hnone' : s.invitations.find? (fun i => i.slug == slug) = none := hnone
      have haff : matchedRows s.invitations slug = 0 := by
        unfold matchedRows
        rw [List.length_eq_zero, List.filter_eq_nil_iff]
        exact List.find?_eq_none.mp hnone'
      have hfind' : findInvBySlug
          { s with invitations := s.invitations.map (fun i =>
              if i.slug == slug then applyStatusRow i snt cpd else i) } slug =
          none := by
        show (s.invitations.map _).find? _ = _
        rw [find?_map_pred _ _ hpred s.invitations, hnone']
        rfl
      show statusResponse _ slug _ = _
      rw [haff]
      unfold statusResponse
      rw [hfind']
      rfl
  · intro inv hinv
    have hinv' : s.invitations.find? (fun i => i.slug == slug) = some inv := hinv
    have hsl : (inv.slug == slug) = true :=
      @List.find?_some Invitation (fun i => i.slug == slug) inv
        s.invitations hinv'
    have hmem : inv ∈ s.invitations :=
      @List.mem_of_find?_eq_some Invitation (fun i => i.slug == slug) inv
        s.invitations hinv'
    have haffne : ¬((matchedRows s.invitations slug == 0) = true) := by
      intro h0
      have hz : matchedRows s.invitations slug = 0 := by simpa using h0
      unfold matchedRows at hz
      rw [List.length_eq_zero] at hz
      have hin : inv ∈ s.invitations.filter (fun i => i.slug == slug) :=
        List.mem_filter.mpr ⟨hmem, hsl⟩
      rw [hz] at hin
      cases hin
    show statusResponse _ slug _ = _
    unfold statusResponse
    rw [if_neg haffne, hfindmap inv hinv, if_pos hsl]

/-- Witness for the amended C9: invitation `f` of `store6` already has
`is_sent = true`; the endpoint still answers with the ordinary update
success, and the not-found error is equivalent to the slug being absent. -/
theorem c9_status_notfound_exact_w :
    ((patchStatus store6 "f" (some true) none).1 =
        StatusResp.notFound "Undangan tidak ditemukan." ↔
      findInvBySlug store6 "f" = none) ∧
    (∀ inv, findInvBySlug store6 "f" = some inv →
      (patchStatus store6 "f" (some true) none).1 =
        StatusResp.ok "Status berhasil diperbarui."
          (applyStatusRow inv (some true) none).is_sent
          (applyStatusRow inv (some true) none).is_copied) :=
  c9_status_notfound_exact store6 "f" (some true) none (Or.inl (by decide))

/-- Claim C10: message creation first confirms the referenced invitation
exists — an unknown `invitation_id` yields the not-found response with the
store unchanged, and whenever the messages table grows, the referenced
invitation exists in the store and the new row references it. -/
theorem c10_message_requires_invitation (s : Store) (iid : Nat) (m : String)
    (hm : (m == "") = false) :
    (invitationIdExists s iid = false →
      createMessage s (some iid) (some m) =
        (.notFound "Invitation tidak ditemukan.", s)) ∧
    (∀ r s', createMessage s (some iid) (some m) = (r, s') →
      s'.messages ≠ s.messages →
      invitationIdExists s iid = true ∧
      s'.messages = s.messages ++
        [{ id := s.nextMessageId, invitation_id := iid, message := m }]) := by
  constructor
  · intro hex
    show createMessageSome s iid m = _
    unfold createMessageSome
    rw [hm, hex]
    rfl
  · intro r s' h hne
    replace h : createMessageSome s iid m = (r, s') := h
    unfold createMessageSome at h
    rw [hm] at h
    by_cases hex : invitationIdExists s iid = true
    · rw [hex] at h
      refine ⟨hex, ?_⟩
      have h2 : _ = s' := congrArg Prod.snd h
      rw [← h2]
      rfl
    · have hex' : invitationIdExists s iid = false := by simpa using hex
      rw [hex'] at h
      have h2 : _ = s' := congrArg Prod.snd h
      rw [← h2] at hne
      exact absurd rfl hne

/-- Witness for C10: invitation id 5 is absent from `store1`, so posting a
message to it is rejected and nothing is inserted. -/
theorem c10_message_requires_invitation_w :
    (invitationIdExists store1 5 = false →
      createMessage store1 (some 5) (some "hi") =
        (.notFound "Invitation tidak ditemukan.", store1)) ∧
    (∀ r s', createMessage store1 (some 5) (some "hi") = (r, s') →
      s'.messages ≠ store1.messages →
      invitationIdExists store1 5 = true ∧
      s'.messages = store1.messages ++
        [{ id := store1.nextMessageId, invitation_id := 5, message := "hi" }]) :=
  c10_message_requires_invitation store1 5 "hi" (by decide)

end RayaRayu
